import Mathlib

set_option maxRecDepth 16000

/-!
Shallow embedding of the RISC-V (rv32i, machine-mode-only) userspace/kernel
boundary of this repository (src/arch/riscv32i/src/syscall.rs), together with
theorems about its facade operations and the context-switch engine.

Machine integers: usize and u32 on this target are 32 bits wide; they are
embedded as Nat, with an explicit % 2^32 wherever the source performs
wrapping arithmetic (the addi that advances the PC).  Pointers are embedded
as plain addresses (Nat).  The debug! macro only prints and is omitted.
-/

namespace Tock

/-- Saved process state: 32 general-purpose register slots plus the resume
program counter, exactly as in the Rust struct RiscvimacStoredState
(regs array of 32 usize at offsets 0*4 .. 31*4, pc at offset 32*4). -/
structure RiscvimacStoredState where
  regs : Fin 32 → Nat
  pc : Nat

/-- Truncating cast of an isize return value to a usize slot, as in the
source expression return_value as usize on a 32-bit target. -/
def usizeOfIsize (v : Int) : Nat := (v % (2 ^ 32)).toNat

/-- Embedding of set_syscall_return_value: state.regs[9] = return_value as
usize (slot 9 is a0, the first return-value register); nothing else is
touched (the debug! line only prints). -/
def set_syscall_return_value (state : RiscvimacStoredState) (return_value : Int) :
    RiscvimacStoredState :=
  { state with regs := Function.update state.regs 9 (usizeOfIsize return_value) }

/-- Function-call descriptor, as in kernel::procs::FunctionCall: four
argument words and an entry PC. -/
structure FunctionCall where
  argument0 : Nat
  argument1 : Nat
  argument2 : Nat
  argument3 : Nat
  pc : Nat

/-- Embedding of set_process_function: writes the four arguments into slots
9..12 (a0..a3); if first_function is false, writes the old state.pc into
slot 0 (ra); then sets state.pc to callback.pc; returns
Ok(stack_pointer).  The result pairs the Result with the updated state. -/
def set_process_function (stack_pointer : Nat) (state : RiscvimacStoredState)
    (callback : FunctionCall) (first_function : Bool) :
    Except Nat Nat × RiscvimacStoredState :=
  let regs1 :=
    Function.update (Function.update (Function.update (Function.update
      state.regs 9 callback.argument0) 10 callback.argument1)
      11 callback.argument2) 12 callback.argument3
  let regs2 := if first_function then regs1 else Function.update regs1 0 state.pc
  (Except.ok stack_pointer, { regs := regs2, pc := callback.pc })

/-- Embedding of the mstatus update performed before mret in the inline
assembly of switch_to_process:
li t1, 0x1808; not t1; and t0, mstatus, t1; ori t0, t0, 0x80.
The 32-bit bitwise not of 0x1808 is (2^32 - 1) ^^^ 0x1808. -/
def mstatus_update (mstatus : Nat) : Nat :=
  (mstatus &&& ((2 ^ 32 - 1) ^^^ 0x1808)) ||| 0x80

/-- Modelled from the spec: a decoded syscall request, built from a class
selector (one byte) and up to four argument words.  The catalog of
recognized classes lives in the external kernel crate
(kernel::syscall::Syscall), which is not part of this repository snapshot. -/
structure Syscall where
  classSelector : Nat
  arg0 : Nat
  arg1 : Nat
  arg2 : Nat
  arg3 : Nat
deriving DecidableEq

/-- Modelled from the spec: the syscall decoder
kernel::syscall::arguments_to_syscall is external to this repository; its
contract is a pure total function from a class byte and four argument words
to an optional request.  The context-switch model below is parameterized
over any such decoder. -/
def SyscallDecoder : Type := Nat → Nat → Nat → Nat → Nat → Option Syscall

/-- Context-switch outcome, as in kernel::syscall::ContextSwitchReason:
exactly the three cases used by this architecture implementation. -/
inductive ContextSwitchReason where
  | SyscallFired (syscall : Syscall)
  | Fault
  | Interrupted
deriving DecidableEq

/-- Boolean discriminator for the SyscallFired case. -/
def ContextSwitchReason.isSyscallFired : ContextSwitchReason → Bool
  | .SyscallFired _ => true
  | _ => false

/-- Basic blocks of the trap-return region of the inline assembly of
switch_to_process, one label per block, in program order:
return_to_kernel (csrr t0, mscratch; blt t0, x0, _app_interrupt; andi),
check_ecall_umode (li t1, 8; beq t0, t1, _done),
app_interrupt (the li that would set the marker is commented out; j _ecall),
jump_go_red (the unconditional j _go_red placed after app_interrupt),
go_red (the LED-driving loop ending in j _go_red),
done_blk (the five lw fetches of a0..a4 plus sp; j _ecall),
ecall_blk (lw pc; addi pc, 4; sw pc), and
exited (the end of the asm block, back in Rust). -/
inductive Label where
  | return_to_kernel
  | check_ecall_umode
  | app_interrupt
  | jump_go_red
  | go_red
  | done_blk
  | ecall_blk
  | exited
deriving DecidableEq

/-- Machine configuration while executing the trap-return assembly: the
current block label, the saved-state record (reachable through register $8),
the Rust output registers $0..$6 (switchReason, syscall0..syscall4, newsp),
and whether the fatal loop has driven the red LED output. -/
structure AsmState where
  label : Label
  st : RiscvimacStoredState
  switchReason : Nat
  syscall0 : Nat
  syscall1 : Nat
  syscall2 : Nat
  syscall3 : Nat
  syscall4 : Nat
  newsp : Nat
  red_led : Bool

/-- Block-level step of the trap-return assembly.  mcause is the trap cause
the trap vector left in mscratch.  Faithful control flow from the source:
the blt takes the interrupt branch exactly when the sign bit (bit 31) of
mcause is set; otherwise t0 is masked with 0x1ff and compared to 8; when
the beq at check_ecall_umode is not taken, execution falls through to the
next instruction, which is the j _ecall under the _app_interrupt label
(the commented-out li $0, 1 writes nothing), so jump_go_red and go_red are
reached from nowhere; every path that leaves the region goes through
ecall_blk, which adds 4 to the stored PC with 32-bit wrap. -/
def step (mcause : Nat) (s : AsmState) : AsmState :=
  match s.label with
  | .return_to_kernel =>
      if Nat.testBit mcause 31 then { s with label := .app_interrupt }
      else { s with label := .check_ecall_umode }
  | .check_ecall_umode =>
      if Nat.land mcause 0x1ff = 8 then { s with label := .done_blk }
      else { s with label := .app_interrupt }
  | .app_interrupt => { s with label := .ecall_blk }
  | .jump_go_red => { s with label := .go_red }
  | .go_red => { s with red_led := true, label := .go_red }
  | .done_blk =>
      { s with
        syscall0 := s.st.regs 9
        syscall1 := s.st.regs 10
        syscall2 := s.st.regs 11
        syscall3 := s.st.regs 12
        syscall4 := s.st.regs 13
        newsp := s.st.regs 1
        label := .ecall_blk }
  | .ecall_blk =>
      { s with
        st := { s.st with pc := (s.st.pc + 4) % 2 ^ 32 }
        label := .exited }
  | .exited => s

/-- Fuel-bounded execution of the trap-return assembly: some final
configuration when the assembly reaches its end, none when the fuel runs
out (in particular when execution is trapped in the go_red loop). -/
def runAsm (mcause : Nat) : Nat → AsmState → Option AsmState
  | 0, _ => none
  | fuel + 1, s =>
      if s.label = .exited then some s else runAsm mcause fuel (step mcause s)

/-- Initial configuration at _return_to_kernel.  The Rust locals syscall0..
syscall4 and newsp are declared without initialization and the assembly
writes them only on the done_blk path, so their pre-assembly contents are
arbitrary junk words, taken here as explicit parameters; switchReason is
initialized to 0 by the Rust code before the assembly runs. -/
def initAsm (state : RiscvimacStoredState)
    (junk0 junk1 junk2 junk3 junk4 junkSp : Nat) : AsmState :=
  { label := .return_to_kernel
    st := state
    switchReason := 0
    syscall0 := junk0
    syscall1 := junk1
    syscall2 := junk2
    syscall3 := junk3
    syscall4 := junk4
    newsp := junkSp
    red_led := false }

/-- Outcome construction performed in Rust after the assembly returns:
Interrupted when switchReason is 1, Fault when it is 2, otherwise the
result of decoding (syscall0 as u8, syscall1..syscall4). -/
def outcomeOf (dec : SyscallDecoder) (s : AsmState) : ContextSwitchReason :=
  if s.switchReason = 1 then ContextSwitchReason.Interrupted
  else if s.switchReason = 2 then ContextSwitchReason.Fault
  else
    match dec (s.syscall0 % 256) s.syscall1 s.syscall2 s.syscall3 s.syscall4 with
    | some sc => ContextSwitchReason.SyscallFired sc
    | none => ContextSwitchReason.Fault

/-- Embedding of switch_to_process from the moment the trap vector jumps
back to _return_to_kernel: runs the trap-return assembly on the saved-state
record as the external trap handler left it (registers stored back, pc at
the trapping instruction, mcause in mscratch), then performs the Rust
outcome construction.  Returns none when the assembly never reaches its end
(the fatal loop), and otherwise the returned stack pointer, the
ContextSwitchReason, and the updated saved-state record.  Eight steps of
fuel exceed the length of every path through the region. -/
def switch_to_process (dec : SyscallDecoder) (mcause : Nat)
    (junk0 junk1 junk2 junk3 junk4 junkSp : Nat)
    (state : RiscvimacStoredState) :
    Option (Nat × ContextSwitchReason × RiscvimacStoredState) :=
  match runAsm mcause 8 (initAsm state junk0 junk1 junk2 junk3 junk4 junkSp) with
  | none => none
  | some s => some (s.newsp, outcomeOf dec s, s.st)

/-- Sample decoder that rejects every class, used to instantiate theorems
at concrete inputs. -/
def decNone : SyscallDecoder := fun _ _ _ _ _ => none

/-- Sample decoder that accepts every class, packaging the five words as a
request, used to instantiate theorems at concrete inputs. -/
def decAll : SyscallDecoder := fun c a0 a1 a2 a3 => some ⟨c, a0, a1, a2, a3⟩

/-- Sample saved-state record for concrete instantiations. -/
def sampleState : RiscvimacStoredState :=
  { regs := fun i => (i : Nat) + 100, pc := 0x500 }

/-- Repeated syscall round trips: N consecutive traps with the same cause
from the same process, each handled by switch_to_process, threading the
updated saved-state record from one trap to the next. -/
def iterateSyscalls (dec : SyscallDecoder) (mcause : Nat)
    (junk0 junk1 junk2 junk3 junk4 junkSp : Nat) :
    Nat → RiscvimacStoredState → RiscvimacStoredState
  | 0, state => state
  | n + 1, state =>
      match switch_to_process dec mcause junk0 junk1 junk2 junk3 junk4 junkSp state with
      | some out =>
          iterateSyscalls dec mcause junk0 junk1 junk2 junk3 junk4 junkSp n out.2.2
      | none => state

/-- Helper: the trap-return assembly on the interrupt path (sign bit of
mcause set) exits after blt to _app_interrupt and j _ecall, leaving the
outputs at their junk values and advancing only the PC. -/
theorem runAsm_interrupt (mcause j0 j1 j2 j3 j4 jsp : Nat)
    (state : RiscvimacStoredState) (h31 : Nat.testBit mcause 31 = true) :
    runAsm mcause 8 (initAsm state j0 j1 j2 j3 j4 jsp) =
      some { label := Label.exited
             st := { state with pc := (state.pc + 4) % 2 ^ 32 }
             switchReason := 0
             syscall0 := j0
             syscall1 := j1
             syscall2 := j2
             syscall3 := j3
             syscall4 := j4
             newsp := jsp
             red_led := false } := by
  simp [runAsm, step, initAsm, h31]

/-- Helper: the trap-return assembly on the environment-call path (sign bit
clear, canonical code 8) goes through done_blk, fetching the five words and
the stack pointer from the record, then advances the PC. -/
theorem runAsm_ecall (mcause j0 j1 j2 j3 j4 jsp : Nat)
    (state : RiscvimacStoredState) (h31 : Nat.testBit mcause 31 = false)
    (h8 : Nat.land mcause 0x1ff = 8) :
    runAsm mcause 8 (initAsm state j0 j1 j2 j3 j4 jsp) =
      some { label := Label.exited
             st := { state with pc := (state.pc + 4) % 2 ^ 32 }
             switchReason := 0
             syscall0 := state.regs 9
             syscall1 := state.regs 10
             syscall2 := state.regs 11
             syscall3 := state.regs 12
             syscall4 := state.regs 13
             newsp := state.regs 1
             red_led := false } := by
  simp [runAsm, step, initAsm, h31, h8]

/-- Helper: the trap-return assembly on an unhandled-exception path (sign
bit clear, canonical code other than 8) falls through the beq at
check_ecall_umode into the j _ecall under _app_interrupt, so it exits
normally with the outputs at their junk values, never reaching go_red. -/
theorem runAsm_unhandled (mcause j0 j1 j2 j3 j4 jsp : Nat)
    (state : RiscvimacStoredState) (h31 : Nat.testBit mcause 31 = false)
    (h8 : Nat.land mcause 0x1ff ≠ 8) :
    runAsm mcause 8 (initAsm state j0 j1 j2 j3 j4 jsp) =
      some { label := Label.exited
             st := { state with pc := (state.pc + 4) % 2 ^ 32 }
             switchReason := 0
             syscall0 := j0
             syscall1 := j1
             syscall2 := j2
             syscall3 := j3
             syscall4 := j4
             newsp := jsp
             red_led := false } := by
  simp [runAsm, step, initAsm, h31, h8]

/-- Helper: switch_to_process on the environment-call path returns the
stored sp slot, the decode-based outcome on the five fetched words, and the
record with the PC advanced by 4. -/
theorem switch_eq_of_ecall (dec : SyscallDecoder) (mcause j0 j1 j2 j3 j4 jsp : Nat)
    (state : RiscvimacStoredState) (h31 : Nat.testBit mcause 31 = false)
    (h8 : Nat.land mcause 0x1ff = 8) :
    switch_to_process dec mcause j0 j1 j2 j3 j4 jsp state =
      some (state.regs 1,
        (match dec (state.regs 9 % 256) (state.regs 10) (state.regs 11)
            (state.regs 12) (state.regs 13) with
         | some sc => ContextSwitchReason.SyscallFired sc
         | none => ContextSwitchReason.Fault),
        { state with pc := (state.pc + 4) % 2 ^ 32 }) := by
  rw [switch_to_process, runAsm_ecall mcause j0 j1 j2 j3 j4 jsp state h31 h8]
  rfl

/-- Helper: switch_to_process on the interrupt path returns the junk sp,
the decode-based outcome on the junk words, and the record with the PC
advanced by 4; the interrupt marker is never written. -/
theorem switch_eq_of_interrupt (dec : SyscallDecoder) (mcause j0 j1 j2 j3 j4 jsp : Nat)
    (state : RiscvimacStoredState) (h31 : Nat.testBit mcause 31 = true) :
    switch_to_process dec mcause j0 j1 j2 j3 j4 jsp state =
      some (jsp,
        (match dec (j0 % 256) j1 j2 j3 j4 with
         | some sc => ContextSwitchReason.SyscallFired sc
         | none => ContextSwitchReason.Fault),
        { state with pc := (state.pc + 4) % 2 ^ 32 }) := by
  rw [switch_to_process, runAsm_interrupt mcause j0 j1 j2 j3 j4 jsp state h31]
  rfl

/-- Helper: switch_to_process on an unhandled-exception path behaves like
the interrupt path: junk outputs, decode-based outcome, PC advanced. -/
theorem switch_eq_of_unhandled (dec : SyscallDecoder) (mcause j0 j1 j2 j3 j4 jsp : Nat)
    (state : RiscvimacStoredState) (h31 : Nat.testBit mcause 31 = false)
    (h8 : Nat.land mcause 0x1ff ≠ 8) :
    switch_to_process dec mcause j0 j1 j2 j3 j4 jsp state =
      some (jsp,
        (match dec (j0 % 256) j1 j2 j3 j4 with
         | some sc => ContextSwitchReason.SyscallFired sc
         | none => ContextSwitchReason.Fault),
        { state with pc := (state.pc + 4) % 2 ^ 32 }) := by
  rw [switch_to_process, runAsm_unhandled mcause j0 j1 j2 j3 j4 jsp state h31 h8]
  rfl

/-- Helper: a decode-based outcome is never Interrupted. -/
theorem decode_outcome_ne_interrupted (dec : SyscallDecoder) (x0 x1 x2 x3 x4 : Nat) :
    (match dec x0 x1 x2 x3 x4 with
     | some sc => ContextSwitchReason.SyscallFired sc
     | none => ContextSwitchReason.Fault) ≠ ContextSwitchReason.Interrupted := by
  cases dec x0 x1 x2 x3 x4 <;> simp

/-- Helper: with an environment-call cause and a PC below 2^32, N iterated
switches advance the stored PC by 4 per trap, modulo 2^32. -/
theorem iterateSyscalls_pc (dec : SyscallDecoder) (mcause j0 j1 j2 j3 j4 jsp : Nat)
    (h31 : Nat.testBit mcause 31 = false) (h8 : Nat.land mcause 0x1ff = 8) :
    ∀ (N : Nat) (state : RiscvimacStoredState), state.pc < 2 ^ 32 →
      (iterateSyscalls dec mcause j0 j1 j2 j3 j4 jsp N state).pc =
        (state.pc + 4 * N) % 2 ^ 32 := by
  intro N
  induction N with
  | zero =>
      intro state hpc
      simp only [iterateSyscalls]
      omega
  | succ n ih =>
      intro state hpc
      rw [iterateSyscalls, switch_eq_of_ecall dec mcause j0 j1 j2 j3 j4 jsp state h31 h8]
      show (iterateSyscalls dec mcause j0 j1 j2 j3 j4 jsp n
          { state with pc := (state.pc + 4) % 2 ^ 32 }).pc =
        (state.pc + 4 * (n + 1)) % 2 ^ 32
      rw [ih { state with pc := (state.pc + 4) % 2 ^ 32 } (Nat.mod_lt _ (by norm_num))]
      show ((state.pc + 4) % 2 ^ 32 + 4 * n) % 2 ^ 32 = (state.pc + 4 * (n + 1)) % 2 ^ 32
      rw [Nat.mod_add_mod]
      congr 1
      ring

/-- Claim C4: a single environment-call trap (cause sign bit clear, canonical
code 8) handled by switch_to_process advances the saved resume PC in the
stored-state record by exactly 4, exactly once, leaving the rest of the
record unchanged; N consecutive such syscalls from the same process advance
it by 4 times N, modulo the 32-bit wrap. -/
theorem c4_syscall_pc_increment (dec : SyscallDecoder)
    (mcause j0 j1 j2 j3 j4 jsp : Nat) (state : RiscvimacStoredState) (N : Nat)
    (h31 : Nat.testBit mcause 31 = false) (h8 : Nat.land mcause 0x1ff = 8)
    (hpc : state.pc < 2 ^ 32) :
    (∃ sp' r, switch_to_process dec mcause j0 j1 j2 j3 j4 jsp state =
        some (sp', r, { state with pc := (state.pc + 4) % 2 ^ 32 })) ∧
    (iterateSyscalls dec mcause j0 j1 j2 j3 j4 jsp N state).pc =
      (state.pc + 4 * N) % 2 ^ 32 :=
  ⟨⟨_, _, switch_eq_of_ecall dec mcause j0 j1 j2 j3 j4 jsp state h31 h8⟩,
   iterateSyscalls_pc dec mcause j0 j1 j2 j3 j4 jsp h31 h8 N state hpc⟩

/-- Witness for C4 at the concrete cause 8, an accepting decoder, the
sample record, and three consecutive syscalls. -/
theorem c4_witness :
    (∃ sp' r, switch_to_process decAll 8 0 0 0 0 0 0 sampleState =
        some (sp', r, { sampleState with pc := (sampleState.pc + 4) % 2 ^ 32 })) ∧
    (iterateSyscalls decAll 8 0 0 0 0 0 0 3 sampleState).pc =
      (sampleState.pc + 4 * 3) % 2 ^ 32 :=
  c4_syscall_pc_increment decAll 8 0 0 0 0 0 0 sampleState 3 (by decide) (by decide)
    (by decide)

/-- Claim C5: set_process_function writes the four arguments of the call into the
four argument-register slots (a0..a3, slots 9..12), sets the stored resume
PC to the entry address of the call, leaves the return-address slot (ra,
slot 0) unchanged when first_function is true, and sets it to the value the
stored PC had before the call when first_function is false. -/
theorem c5_set_process_function_effect (stack_pointer : Nat)
    (state : RiscvimacStoredState) (callback : FunctionCall) (first_function : Bool) :
    ((set_process_function stack_pointer state callback first_function).2.regs 9 =
        callback.argument0) ∧
    ((set_process_function stack_pointer state callback first_function).2.regs 10 =
        callback.argument1) ∧
    ((set_process_function stack_pointer state callback first_function).2.regs 11 =
        callback.argument2) ∧
    ((set_process_function stack_pointer state callback first_function).2.regs 12 =
        callback.argument3) ∧
    ((set_process_function stack_pointer state callback first_function).2.pc =
        callback.pc) ∧
    ((set_process_function stack_pointer state callback first_function).2.regs 0 =
        if first_function then state.regs 0 else state.pc) := by
  cases first_function <;>
    simp [set_process_function, Function.update_apply]

/-- Claim C6: set_syscall_return_value writes the value, truncated to a usize,
into exactly slot 9 (a0, the first return-value register); every other
register slot and the stored PC are unchanged. -/
theorem c6_set_syscall_return_value_frame (state : RiscvimacStoredState)
    (v : Int) (i : Fin 32) :
    ((set_syscall_return_value state v).regs i =
      if i = 9 then usizeOfIsize v else state.regs i) ∧
    (set_syscall_return_value state v).pc = state.pc := by
  constructor
  · simp [set_syscall_return_value, Function.update_apply]
  · rfl

/-- Claim C8: set_process_function always returns the Ok variant carrying the
caller-supplied stack pointer unchanged; the Err variant is never
produced. -/
theorem c8_set_process_function_never_fails (stack_pointer : Nat)
    (state : RiscvimacStoredState) (callback : FunctionCall) (first_function : Bool) :
    (set_process_function stack_pointer state callback first_function).1 =
      Except.ok stack_pointer := rfl

/-- Claim C7: the status value written back before mret equals the initial
mstatus with bits 3, 11 and 12 (machine interrupt enable and previous
privilege mode, the 0x1808 mask) cleared, bit 7 (previous interrupt
enable, 0x80) set, and every other bit preserved. -/
theorem c7_mstatus_update_bits (s : Nat) (hs : s < 2 ^ 32) (i : Nat) :
    Nat.testBit (mstatus_update s) i =
      if i = 7 then true
      else if i = 3 ∨ i = 11 ∨ i = 12 then false
      else Nat.testBit s i := by
  have h1808 : (0x1808 : Nat) = 2 ^ 3 ||| 2 ^ 11 ||| 2 ^ 12 := by decide
  have h80 : (0x80 : Nat) = 2 ^ 7 := by decide
  rw [mstatus_update, h1808, h80]
  simp only [Nat.testBit_or, Nat.testBit_and, Nat.testBit_xor,
    Nat.testBit_two_pow_sub_one, Nat.testBit_two_pow]
  rcases Nat.lt_or_ge i 32 with hi | hi
  · interval_cases i <;> simp
  · have h1 : Nat.testBit s i = false :=
      Nat.testBit_lt_two_pow (lt_of_lt_of_le hs (Nat.pow_le_pow_right (by norm_num) hi))
    have h2 : ¬ i < 32 := by omega
    have h3 : ¬ i = 7 := by omega
    have h4 : ¬ (i = 3 ∨ i = 11 ∨ i = 12) := by omega
    have h5 : ¬ (3 = i) := by omega
    have h6 : ¬ (11 = i) := by omega
    have h7a : ¬ (12 = i) := by omega
    have h8a : ¬ (7 = i) := by omega
    simp [h1, h2, h3, h4, h5, h6, h7a, h8a]

/-- Witness for C7 at the concrete status value 0x12345678 and bit 12. -/
theorem c7_witness :
    Nat.testBit (mstatus_update 0x12345678) 12 =
      if (12 : Nat) = 7 then true
      else if (12 : Nat) = 3 ∨ (12 : Nat) = 11 ∨ (12 : Nat) = 12 then false
      else Nat.testBit 0x12345678 12 :=
  c7_mstatus_update_bits 0x12345678 (by decide) 12

/-- Claim C2: for every trap cause, every decoder, and every record,
switch_to_process returns, and the outcome is exactly one of Interrupted,
Fault, or SyscallFired; when neither marker is set and the cause is an
environment call (sign bit clear, canonical code 8), the outcome is
SyscallFired with the decoded request when the decoder accepts the five
fetched words, and Fault when the decoder returns none. -/
theorem c2_outcome_classification (dec : SyscallDecoder)
    (mcause j0 j1 j2 j3 j4 jsp : Nat) (state : RiscvimacStoredState) :
    ∃ out, switch_to_process dec mcause j0 j1 j2 j3 j4 jsp state = some out ∧
      (out.2.1 = ContextSwitchReason.Interrupted ∨
        out.2.1 = ContextSwitchReason.Fault ∨
        out.2.1.isSyscallFired = true) ∧
      (Nat.testBit mcause 31 = false → Nat.land mcause 0x1ff = 8 →
        out.2.1 =
          match dec (state.regs 9 % 256) (state.regs 10) (state.regs 11)
              (state.regs 12) (state.regs 13) with
          | some sc => ContextSwitchReason.SyscallFired sc
          | none => ContextSwitchReason.Fault) := by
  cases h31 : Nat.testBit mcause 31 with
  | false =>
      by_cases h8 : Nat.land mcause 0x1ff = 8
      · refine ⟨_, switch_eq_of_ecall dec mcause j0 j1 j2 j3 j4 jsp state h31 h8, ?_, ?_⟩
        · cases hdec : dec (state.regs 9 % 256) (state.regs 10) (state.regs 11)
              (state.regs 12) (state.regs 13) <;>
            simp [hdec, ContextSwitchReason.isSyscallFired]
        · intro _ _
          rfl
      · refine ⟨_, switch_eq_of_unhandled dec mcause j0 j1 j2 j3 j4 jsp state h31 h8, ?_, ?_⟩
        · cases hdec : dec (j0 % 256) j1 j2 j3 j4 <;>
            simp [hdec, ContextSwitchReason.isSyscallFired]
        · intro _ h8a
          exact absurd h8a h8
  | true =>
      refine ⟨_, switch_eq_of_interrupt dec mcause j0 j1 j2 j3 j4 jsp state h31, ?_, ?_⟩
      · cases hdec : dec (j0 % 256) j1 j2 j3 j4 <;>
          simp [hdec, ContextSwitchReason.isSyscallFired]
      · intro h31a _
        exact Bool.noConfusion h31a

/-- Witness for C2 at the concrete cause 8, an accepting decoder, and the
sample record. -/
theorem c2_witness :
    ∃ out, switch_to_process decAll 8 0 0 0 0 0 0 sampleState = some out ∧
      (out.2.1 = ContextSwitchReason.Interrupted ∨
        out.2.1 = ContextSwitchReason.Fault ∨
        out.2.1.isSyscallFired = true) ∧
      (Nat.testBit 8 31 = false → Nat.land 8 0x1ff = 8 →
        out.2.1 =
          match decAll (sampleState.regs 9 % 256) (sampleState.regs 10)
              (sampleState.regs 11) (sampleState.regs 12) (sampleState.regs 13) with
          | some sc => ContextSwitchReason.SyscallFired sc
          | none => ContextSwitchReason.Fault) :=
  c2_outcome_classification decAll 8 0 0 0 0 0 0 sampleState

/-- Claim C10: every path by which switch_to_process returns control to the
kernel, the hardware-interrupt path included, increments the saved resume
PC in the record by 4 modulo the 32-bit wrap, so the process resumes 4
bytes past the instruction at which it trapped. -/
theorem c10_every_return_advances_pc (dec : SyscallDecoder)
    (mcause j0 j1 j2 j3 j4 jsp : Nat) (state : RiscvimacStoredState) :
    ∃ sp' r, switch_to_process dec mcause j0 j1 j2 j3 j4 jsp state =
      some (sp', r, { state with pc := (state.pc + 4) % 2 ^ 32 }) := by
  cases h31 : Nat.testBit mcause 31 with
  | false =>
      by_cases h8 : Nat.land mcause 0x1ff = 8
      · exact ⟨_, _, switch_eq_of_ecall dec mcause j0 j1 j2 j3 j4 jsp state h31 h8⟩
      · exact ⟨_, _, switch_eq_of_unhandled dec mcause j0 j1 j2 j3 j4 jsp state h31 h8⟩
  | true => exact ⟨_, _, switch_eq_of_interrupt dec mcause j0 j1 j2 j3 j4 jsp state h31⟩

/-- Claim C1: divergence from the claim that an unhandled exception (sign bit
clear, canonical code other than 8) enters the fatal go_red halt loop,
drives the failure output, and never returns: the fall-through of the beq
at check_ecall_umode lands on the j _ecall under the _app_interrupt label,
so the assembly exits without ever driving the red LED and
switch_to_process returns to the kernel with the PC advanced. -/
theorem c1_unhandled_trap_returns (dec : SyscallDecoder)
    (mcause j0 j1 j2 j3 j4 jsp : Nat) (state : RiscvimacStoredState)
    (h31 : Nat.testBit mcause 31 = false) (h8 : Nat.land mcause 0x1ff ≠ 8) :
    ∃ s, runAsm mcause 8 (initAsm state j0 j1 j2 j3 j4 jsp) = some s ∧
      s.red_led = false ∧ s.label = Label.exited ∧
      switch_to_process dec mcause j0 j1 j2 j3 j4 jsp state =
        some (jsp, outcomeOf dec s,
          { state with pc := (state.pc + 4) % 2 ^ 32 }) := by
  refine ⟨_, runAsm_unhandled mcause j0 j1 j2 j3 j4 jsp state h31 h8, rfl, rfl, ?_⟩
  rw [switch_to_process, runAsm_unhandled mcause j0 j1 j2 j3 j4 jsp state h31 h8]

/-- Witness for C1 at the concrete unhandled cause 2 (illegal instruction)
with a rejecting decoder and the sample record. -/
theorem c1_witness :
    ∃ s, runAsm 2 8 (initAsm sampleState 0 0 0 0 0 0) = some s ∧
      s.red_led = false ∧ s.label = Label.exited ∧
      switch_to_process decNone 2 0 0 0 0 0 0 sampleState =
        some (0, outcomeOf decNone s,
          { sampleState with pc := (sampleState.pc + 4) % 2 ^ 32 }) :=
  c1_unhandled_trap_returns decNone 2 0 0 0 0 0 0 sampleState (by decide) (by decide)

/-- Claim C3: divergence from the claim that a cause with the sign bit set yields
the Interrupted outcome: at cause 0x80000000 the blt branch reaches
_app_interrupt, whose marker-setting instruction is commented out, so the
outcome is produced by the syscall decode of the junk words; with a
rejecting decoder the outcome is Fault, not Interrupted. -/
theorem c3_interrupt_cause_not_interrupted :
    switch_to_process decNone 0x80000000 0 0 0 0 0 0 sampleState =
      some (0, ContextSwitchReason.Fault, { sampleState with pc := 0x504 }) ∧
    ContextSwitchReason.Fault ≠ ContextSwitchReason.Interrupted := by
  constructor
  · rfl
  · decide

/-- Claim C9: switch_to_process never returns the Interrupted outcome: the
instruction that would set the interrupt marker to 1 is commented out, so
the marker stays 0 on every path and every produced outcome is
decode-based, either SyscallFired or Fault. -/
theorem c9_interrupted_unreachable (dec : SyscallDecoder)
    (mcause j0 j1 j2 j3 j4 jsp : Nat) (state : RiscvimacStoredState)
    (out : Nat × ContextSwitchReason × RiscvimacStoredState)
    (h : switch_to_process dec mcause j0 j1 j2 j3 j4 jsp state = some out) :
    out.2.1 ≠ ContextSwitchReason.Interrupted := by
  cases h31 : Nat.testBit mcause 31 with
  | false =>
      by_cases h8 : Nat.land mcause 0x1ff = 8
      · have hx := Option.some.inj
          ((switch_eq_of_ecall dec mcause j0 j1 j2 j3 j4 jsp state h31 h8).symm.trans h)
        rw [← hx]
        exact decode_outcome_ne_interrupted dec _ _ _ _ _
      · have hx := Option.some.inj
          ((switch_eq_of_unhandled dec mcause j0 j1 j2 j3 j4 jsp state h31 h8).symm.trans h)
        rw [← hx]
        exact decode_outcome_ne_interrupted dec _ _ _ _ _
  | true =>
      have hx := Option.some.inj
        ((switch_eq_of_interrupt dec mcause j0 j1 j2 j3 j4 jsp state h31).symm.trans h)
      rw [← hx]
      exact decode_outcome_ne_interrupted dec _ _ _ _ _

/-- Witness for C9 at the concrete cause 2 with a rejecting decoder and
the sample record. -/
theorem c9_witness :
    (((0 : Nat), ContextSwitchReason.Fault, { sampleState with pc := 0x504 }) :
        Nat × ContextSwitchReason × RiscvimacStoredState).2.1 ≠
      ContextSwitchReason.Interrupted :=
  c9_interrupted_unreachable decNone 2 0 0 0 0 0 0 sampleState
    ((0 : Nat), ContextSwitchReason.Fault, { sampleState with pc := 0x504 }) rfl

end Tock
